import Mathlib

/-!
Verification of the SSH syslog plugin (`plaso/parsers/syslog_plugins/ssh.py`).

The plugin defines three pyparsing grammars (`login`, `failed_connection`,
`opened_connection`) over the free-text body of a syslog line, and a record
builder `_ParseMessage` that turns a matched grammar's token mapping into a
typed event-data record.

The pyparsing combinators used by the plugin (`Literal`, `Keyword`, `Word`,
`Regex` for IPv4 addresses, `Combine`, `Optional`, `MatchFirst`, `And`,
`StringEnd`, `LineEnd`) are embedded below as executable functions on
`List Char`.  Parsing state carries the remaining input, the character that
immediately precedes it (pyparsing's `Keyword` inspects the preceding
character), and the named tokens collected so far.  Inter-token whitespace is
a space or a tab: the syslog text parser configures pyparsing's default
whitespace characters this way before the grammars are built, so newlines are
significant (they only match `LineEnd`).
-/

namespace Ssh

/-- Characters skipped between grammar elements (space and tab). -/
def wsChar (c : Char) : Bool := c == ' ' || c == '\t'

/-- Identifier characters used by pyparsing `Keyword` boundary checks:
alphanumerics plus underscore and dollar. -/
def identChar (c : Char) : Bool := c.isAlphanum || c == '_' || c == '$'

/-- Hexadecimal digit characters (pyparsing `hexnums`). -/
def hexChar (c : Char) : Bool :=
  c.isDigit || (decide ('a' ≤ c) && decide (c ≤ 'f')) ||
    (decide ('A' ≤ c) && decide (c ≤ 'F'))

/-- Characters of the fingerprint payload: hex digits and colons
(pyparsing `Word(':' + hexnums)`). -/
def hexColonChar (c : Char) : Bool := hexChar c || c == ':'

/-- Result of one grammar element: remaining input and the matched text. -/
def Leaf : Type := Option Char → List Char → Option (List Char × List Char)

/-- Models pyparsing `Literal(l)`: skip whitespace, then match `l` exactly. -/
def litLeaf (l : List Char) : Leaf := fun _ s =>
  let s0 := s.dropWhile wsChar
  if l.isPrefixOf s0 then some (s0.drop l.length, l) else none

/-- Models pyparsing `Keyword(kw)`: skip whitespace, match `kw`, and require
that neither the preceding character (the last skipped whitespace character,
or the character consumed just before when none was skipped) nor the
following character is an identifier character. -/
def keywordLeaf (kw : List Char) : Leaf := fun prev s =>
  let pre := s.takeWhile wsChar
  let s0 := s.dropWhile wsChar
  let prevChar : Option Char := if pre.isEmpty then prev else pre.getLast?
  if kw.isPrefixOf s0 then
    if prevChar.elim false identChar then none
    else
      match s0.drop kw.length with
      | [] => some ([], kw)
      | c :: r => if identChar c then none else some (c :: r, kw)
  else none

/-- Models pyparsing `Word(chars)` and `Word(chars, max=k)`: skip whitespace,
require a first matching character, consume greedily.  When a maximum is
specified and the character after the maximal run would still belong to the
word, the element fails (pyparsing raises in that case rather than
truncating). -/
def wordLeaf (p : Char → Bool) (maxLen : Option Nat) : Leaf := fun _ s =>
  let s0 := s.dropWhile wsChar
  match s0 with
  | [] => none
  | c :: _ =>
    if p c then
      let m0 := s0.takeWhile p
      match maxLen with
      | none => some (s0.drop m0.length, m0)
      | some k => if k < m0.length then none else some (s0.drop m0.length, m0)
    else none

/-- Models pyparsing `StringEnd`: skip whitespace, succeed only at the end of
the input. -/
def stringEndLeaf : Leaf := fun _ s =>
  if (s.dropWhile wsChar).isEmpty then some ([], []) else none

/-- Models pyparsing `LineEnd`: skip whitespace other than newlines, then
match a newline (consuming it) or the end of the input. -/
def lineEndLeaf : Leaf := fun _ s =>
  let s0 := s.dropWhile wsChar
  match s0 with
  | [] => some ([], [])
  | c :: r => if c == '\n' then some (r, ['\n']) else none

/-- Models `MatchFirst` of two elements: try the first, then the second. -/
def altLeaf (l1 l2 : Leaf) : Leaf := fun prev s =>
  match l1 prev s with
  | some r => some r
  | none => l2 prev s

/-- Candidate two-or-one digit matches for the `[0-9]{1,2}` part of the IPv4
octet regex, in backtracking preference order (greedy: two digits first). -/
def ddCands (s : List Char) : List (List Char × List Char) :=
  (match s with
   | a :: b :: r => if a.isDigit && b.isDigit then [([a, b], r)] else []
   | _ => []) ++
  (match s with
   | a :: r => if a.isDigit then [([a], r)] else []
   | _ => [])

/-- Candidate matches of one octet `(25[0-5]|2[0-4][0-9]|1?[0-9]{1,2})`, in
the backtracking preference order of the Python regex engine. -/
def octetCands (s : List Char) : List (List Char × List Char) :=
  (match s with
   | '2' :: '5' :: c :: r =>
     if decide ('0' ≤ c) && decide (c ≤ '5') then [(['2', '5', c], r)] else []
   | _ => []) ++
  (match s with
   | '2' :: b :: c :: r =>
     if (decide ('0' ≤ b) && decide (b ≤ '4')) && c.isDigit then
       [(['2', b, c], r)]
     else []
   | _ => []) ++
  (match s with
   | '1' :: t => (ddCands t).map (fun p => ('1' :: p.1, p.2))
   | _ => []) ++
  ddCands s

/-- Backtracking over a list of candidate matches: try each candidate in
order, continuing with `k`; the first candidate whose continuation succeeds
wins. -/
def tryCands (cs : List (List Char × List Char))
    (k : List Char → Option (List Char × List Char)) :
    Option (List Char × List Char) :=
  match cs with
  | [] => none
  | (m, r) :: rest =>
    match k r with
    | some (m2, r2) => some (m ++ m2, r2)
    | none => tryCands rest k

/-- One `\.` followed by an octet, with backtracking into the octet
candidates. -/
def dotOctet (s : List Char) (k : List Char → Option (List Char × List Char)) :
    Option (List Char × List Char) :=
  match s with
  | '.' :: t =>
    match tryCands (octetCands t) k with
    | some (m, r) => some ('.' :: m, r)
    | none => none
  | _ => none

/-- Models the IPv4 regex
`(25[0-5]|2[0-4][0-9]|1?[0-9]{1,2})(\.(...)){3}` of
`pyparsing_common.ipv4_address`, matched at the start of `s` with Python
regex backtracking. -/
def ipv4Core (s : List Char) : Option (List Char × List Char) :=
  tryCands (octetCands s) (fun r1 =>
    dotOctet r1 (fun r2 =>
      dotOctet r2 (fun r3 =>
        dotOctet r3 (fun r4 => some ([], r4)))))

/-- The IPv4 address element: skip whitespace, then match the regex. -/
def ipv4Leaf : Leaf := fun _ s =>
  let s0 := s.dropWhile wsChar
  match ipv4Core s0 with
  | some (m, r) => some (r, m)
  | none => none

/-- One hexadecimal group of an IPv6 address: `[0-9a-fA-F]{1,4}`, greedy. -/
def hexPart (s : List Char) : Option (List Char × List Char) :=
  match s with
  | c :: _ =>
    if hexChar c then
      let m := (s.takeWhile hexChar).take 4
      some (m, s.drop m.length)
    else none
  | [] => none

/-- Exactly `n` repetitions of `:` followed by a hex group, adjacent. -/
def colonParts : Nat → List Char → Option (List Char × List Char)
  | 0, s => some ([], s)
  | n + 1, s =>
    match s with
    | ':' :: t =>
      match hexPart t with
      | some (m, r) =>
        match colonParts n r with
        | some (m2, r2) => some (':' :: (m ++ m2), r2)
        | none => none
      | none => none
    | _ => none

/-- At most `n` repetitions of `:` followed by a hex group, greedy, with the
number of groups consumed. -/
def colonPartsUpTo : Nat → List Char → List Char × List Char × Nat
  | 0, s => ([], s, 0)
  | n + 1, s =>
    match s with
    | ':' :: t =>
      match hexPart t with
      | some (m, r) =>
        match colonPartsUpTo n r with
        | (m2, r2, c) => (':' :: (m ++ m2), r2, c + 1)
      | none => ([], s, 0)
    | _ => ([], s, 0)

/-- Optional `part (: part)*(0,6)` clause of the shortened IPv6 form,
returning matched text, rest and the number of hex groups consumed. -/
def ipv6Side (s : List Char) : List Char × List Char × Nat :=
  match hexPart s with
  | some (m, r) =>
    match colonPartsUpTo 6 r with
    | (m2, r2, c) => (m ++ m2, r2, c + 1)
  | none => ([], s, 0)

/-- The full IPv6 form: a hex group followed by seven `:`-group pairs. -/
def ipv6Full (s : List Char) : Option (List Char × List Char) :=
  match hexPart s with
  | some (m, r) =>
    match colonParts 7 r with
    | some (m2, r2) => some (m ++ m2, r2)
    | none => none
  | none => none

/-- The mixed IPv6 form: the literal `::ffff:` followed by an IPv4 address. -/
def ipv6Mixed (s : List Char) : Option (List Char × List Char) :=
  let pre := (":" ++ ":ffff:").toList
  if pre.isPrefixOf s then
    match ipv4Core (s.drop pre.length) with
    | some (m, r) => some (pre ++ m, r)
    | none => none
  else none

/-- The shortened IPv6 form: optional groups, `::`, optional groups, with
fewer than eight groups in total. -/
def ipv6Short (s : List Char) : Option (List Char × List Char) :=
  match ipv6Side s with
  | (m1, r1, c1) =>
    match r1 with
    | ':' :: ':' :: r2 =>
      match ipv6Side r2 with
      | (m3, r3, c3) =>
        if c1 + c3 < 8 then some (m1 ++ (':' :: ':' :: m3), r3) else none
    | _ => none

/-- Models `pyparsing_common.ipv6_address` (library code, not in `src/`):
full, mixed and shortened colon-hex IPv6 literal forms, tried in that order,
wrapped in an adjacent `Combine`. -/
def ipv6Core (s : List Char) : Option (List Char × List Char) :=
  match ipv6Full s with
  | some r => some r
  | none =>
    match ipv6Mixed s with
    | some r => some r
    | none => ipv6Short s

/-- The IPv6 address element: skip whitespace, then match one of the forms. -/
def ipv6Leaf : Leaf := fun _ s =>
  let s0 := s.dropWhile wsChar
  match ipv6Core s0 with
  | some (m, r) => some (r, m)
  | none => none

/-- Models the `_FINGER_PRINT` element:
`Combine(Literal('RSA ') + Word(':' + hexnums))` — skip whitespace before the
clause, then `RSA ` immediately followed by hex digits and colons, all
adjacent; the token is the concatenated matched text. -/
def fingerPrintLeaf : Leaf := fun _ s =>
  let s0 := s.dropWhile wsChar
  let rsa := ("RSA ").toList
  if rsa.isPrefixOf s0 then
    match s0.drop rsa.length with
    | [] => none
    | c :: r =>
      if hexColonChar c then
        let m := (c :: r).takeWhile hexColonChar
        some ((c :: r).drop m.length, rsa ++ m)
      else none
  else none

/-- Parsing state: the character immediately before the remaining input, the
remaining input, and the named tokens collected so far. -/
structure PState where
  prev : Option Char
  rest : List Char
  toks : List (String × String)
deriving DecidableEq, Repr

/-- A grammar: a state transformer that fails on mismatch. -/
def GP : Type := PState → Option PState

/-- Lift a grammar element into a grammar, optionally recording the matched
text under a results name (pyparsing `setResultsName`). -/
def applyLeaf (name : Option String) (lf : Leaf) : GP := fun st =>
  match lf st.prev st.rest with
  | none => none
  | some (r, m) =>
    some { prev := match m.getLast? with
                   | some c => some c
                   | none => st.prev,
           rest := r,
           toks := st.toks ++ (match name with
                               | some n => [(n, String.mk m)]
                               | none => []) }

/-- Models pyparsing `And`: run the first grammar, then the second. -/
def gseq (p q : GP) : GP := fun st =>
  match p st with
  | some st1 => q st1
  | none => none

/-- Models pyparsing `Optional`: on failure, succeed without consuming. -/
def gopt (p : GP) : GP := fun st =>
  match p st with
  | some st1 => some st1
  | none => some st

/-- Token-mapping key and literal-string constants of the plugin. -/
def kUsername : String := "username"
def kAuthenticationMethod : String := "authentication_method"
def kAddress : String := "address"
def kPort : String := "port"
def kProtocol : String := "protocol"
def kFingerprint : String := "fingerprint"
def kLogin : String := "login"
def kFailedConnection : String := "failed_connection"
def kOpenedConnection : String := "opened_connection"

/-- Models `_AUTHENTICATION_METHOD`:
`Keyword('password') | Keyword('publickey')`. -/
def AUTHENTICATION_METHOD : Leaf :=
  altLeaf (keywordLeaf ("password").toList) (keywordLeaf ("publickey").toList)

/-- Models `_IP_ADDRESS`: `ipv4_address | ipv6_address`. -/
def IP_ADDRESS : Leaf := altLeaf ipv4Leaf ipv6Leaf

/-- Models `_USERNAME`: `Word(alphanums)` named `username`. -/
def USERNAME : GP := applyLeaf (some kUsername) (wordLeaf Char.isAlphanum none)

/-- Models `_PORT`: `Word(nums, max=5)` named `port`. -/
def PORT : GP := applyLeaf (some kPort) (wordLeaf Char.isDigit (some 5))

/-- Models `_LOGIN_GRAMMAR`. -/
def LOGIN_GRAMMAR : GP :=
  gseq (applyLeaf none (litLeaf ("Accepted").toList)) <|
  gseq (applyLeaf (some kAuthenticationMethod) AUTHENTICATION_METHOD) <|
  gseq (applyLeaf none (litLeaf ("for").toList)) <|
  gseq USERNAME <|
  gseq (applyLeaf none (litLeaf ("from").toList)) <|
  gseq (applyLeaf (some kAddress) IP_ADDRESS) <|
  gseq (applyLeaf none (litLeaf ("port").toList)) <|
  gseq PORT <|
  gseq (applyLeaf (some kProtocol) (litLeaf ("ssh2").toList)) <|
  gseq (gopt (gseq (applyLeaf none (litLeaf ([':'])))
                   (applyLeaf (some kFingerprint) fingerPrintLeaf))) <|
  applyLeaf none stringEndLeaf

/-- Models `_FAILED_CONNECTION_GRAMMAR`. -/
def FAILED_CONNECTION_GRAMMAR : GP :=
  gseq (applyLeaf none (litLeaf ("Failed").toList)) <|
  gseq (applyLeaf (some kAuthenticationMethod) AUTHENTICATION_METHOD) <|
  gseq (applyLeaf none (litLeaf ("for").toList)) <|
  gseq USERNAME <|
  gseq (applyLeaf none (litLeaf ("from").toList)) <|
  gseq (applyLeaf (some kAddress) IP_ADDRESS) <|
  gseq (applyLeaf none (litLeaf ("port").toList)) <|
  gseq PORT <|
  applyLeaf none stringEndLeaf

/-- Models `_OPENED_CONNECTION_GRAMMAR`. -/
def OPENED_CONNECTION_GRAMMAR : GP :=
  gseq (applyLeaf none (litLeaf ("Connection from").toList)) <|
  gseq (applyLeaf (some kAddress) IP_ADDRESS) <|
  gseq (applyLeaf none (litLeaf ("port").toList)) <|
  gseq PORT <|
  applyLeaf none lineEndLeaf

/-- Models `MESSAGE_GRAMMARS`: the declared ordered list of grammars. -/
def MESSAGE_GRAMMARS : List (String × GP) :=
  [(kLogin, LOGIN_GRAMMAR),
   (kFailedConnection, FAILED_CONNECTION_GRAMMAR),
   (kOpenedConnection, OPENED_CONNECTION_GRAMMAR)]

/-- Models `_SUPPORTED_KEYS`: the keys of `MESSAGE_GRAMMARS`. -/
def SUPPORTED_KEYS : List String := MESSAGE_GRAMMARS.map Prod.fst

/-- Run a grammar against a message body from the initial state, returning
its token mapping on a full grammar match. -/
def runGrammar (g : GP) (body : List Char) : Option (List (String × String)) :=
  match g { prev := none, rest := body, toks := [] } with
  | some st => some st.toks
  | none => none

/-- Modelled from the spec: the classifier loop of the syslog plugin
interface (not in `src/`) tries the declared grammars in order against the
body and returns the first full match with its category key, or no match. -/
def classifyFrom : List (String × GP) → List Char →
    Option (String × List (String × String))
  | [], _ => none
  | (k, g) :: rest, body =>
    match runGrammar g body with
    | some toks => some (k, toks)
    | none => classifyFrom rest body

/-- Modelled from the spec: `classify` applies the declared grammar list. -/
def classify (body : List Char) : Option (String × List (String × String)) :=
  classifyFrom MESSAGE_GRAMMARS body

/-- Data-type identifiers of the three event-data record classes. -/
def dtLogin : String := "syslog:ssh:login"
def dtFailedConnection : String := "syslog:ssh:failed_connection"
def dtOpenedConnection : String := "syslog:ssh:opened_connection"

/-- Models the SSH event-data record populated by `_ParseMessage`, with the
attributes of `SSHEventData` and its `SyslogLineEventData` base.  The
date-time value is opaque to this code, hence the type parameter. -/
structure SSHEventData (DT : Type) where
  data_type : String
  address : Option String
  authentication_method : Option String
  body : Option String
  fingerprint : Option String
  hostname : Option String
  last_written_time : DT
  pid : Option String
  port : Option String
  protocol : Option String
  reporter : Option String
  severity : Option String
  username : Option String
deriving Repr

/-- The `ParseError` message raised for an unsupported key. -/
def unknownStructureMessage (key : String) : String :=
  "Unable to parse message, unknown structure: " ++ key

/-- Models `_ParseMessage`: raise `ParseError` when the key is not among
`_SUPPORTED_KEYS`; otherwise build the event-data record for the key's
category, filling every field from the token mapping (absent keys become
`None`) and the last-written time from the date-time argument.  The produced
record is returned where the plugin hands it to the mediator. -/
def ParseMessage {DT : Type} (key : String) (date_time : DT)
    (tokens : List (String × String)) : Except String (SSHEventData DT) :=
  if key ∈ SUPPORTED_KEYS then
    Except.ok
      { data_type :=
          if key = kLogin then dtLogin
          else if key = kFailedConnection then dtFailedConnection
          else dtOpenedConnection,
        address := tokens.lookup kAddress,
        authentication_method := tokens.lookup kAuthenticationMethod,
        body := tokens.lookup ("body"),
        fingerprint := tokens.lookup kFingerprint,
        hostname := tokens.lookup ("hostname"),
        last_written_time := date_time,
        pid := tokens.lookup ("pid"),
        port := tokens.lookup kPort,
        protocol := tokens.lookup kProtocol,
        reporter := tokens.lookup ("reporter"),
        severity := tokens.lookup ("severity"),
        username := tokens.lookup kUsername }
  else Except.error (unknownStructureMessage key)

example :
    runGrammar LOGIN_GRAMMAR
      (("Accepted password for alice from 10.0.0.5 port 22 ssh2").toList) =
    some [(kAuthenticationMethod, "password"), (kUsername, "alice"),
          (kAddress, "10.0.0.5"), (kPort, "22"), (kProtocol, "ssh2")] := by
  decide

example :
    runGrammar FAILED_CONNECTION_GRAMMAR
      (("Failed password for root from 192.168.1.1 port 22").toList) =
    some [(kAuthenticationMethod, "password"), (kUsername, "root"),
          (kAddress, "192.168.1.1"), (kPort, "22")] := by
  decide

example :
    runGrammar OPENED_CONNECTION_GRAMMAR
      (("Connection from 2001:db8::1 port 22").toList) =
    some [(kAddress, "2001:db8::1"), (kPort, "22")] := by
  decide

example : classify (("This is not an SSH message").toList) = none := by
  decide

example :
    runGrammar LOGIN_GRAMMAR
      (("Accepted publickey for bob from 10.0.0.5 port 2222 ssh2: RSA aa:bb:cc:dd").toList) =
    some [(kAuthenticationMethod, "publickey"), (kUsername, "bob"),
          (kAddress, "10.0.0.5"), (kPort, "2222"), (kProtocol, "ssh2"),
          (kFingerprint, "RSA aa:bb:cc:dd")] := by
  decide

/-- C2: for every key outside the supported set and every token mapping,
`_ParseMessage` fails with the unknown-structure `ParseError` before any
record is constructed. -/
theorem parseMessage_unknown_key_error {DT : Type} (key : String) (dt : DT)
    (tokens : List (String × String)) (h : key ∉ SUPPORTED_KEYS) :
    ParseMessage key dt tokens = Except.error (unknownStructureMessage key) := by
  simp [ParseMessage, h]

/-- Witness for C2: the key `bogus` is unsupported and record construction
fails with the unknown-structure error. -/
theorem parseMessage_unknown_key_error_witness :
    ("bogus") ∉ SUPPORTED_KEYS ∧
    ParseMessage ("bogus") (0 : Nat) [] =
      Except.error (unknownStructureMessage ("bogus")) :=
  ⟨by decide, parseMessage_unknown_key_error ("bogus") 0 [] (by decide)⟩

/-- C9: for every recognized category, every date-time value and every token
mapping, each record field among address, authentication_method, body,
fingerprint, hostname, pid, port, protocol, reporter, severity and username
equals the token mapping's value under the same key (absent keys giving
`none`), and the last-written time equals the date-time argument. -/
theorem parseMessage_fields_from_tokens {DT : Type} (key : String) (dt : DT)
    (tokens : List (String × String)) (h : key ∈ SUPPORTED_KEYS) :
    (ParseMessage key dt tokens).map (fun r =>
      (r.address, r.authentication_method, r.body, r.fingerprint, r.hostname,
       r.pid, r.port, r.protocol, r.reporter, r.severity, r.username,
       r.last_written_time)) =
    Except.ok
      (tokens.lookup kAddress, tokens.lookup kAuthenticationMethod,
       tokens.lookup ("body"), tokens.lookup kFingerprint,
       tokens.lookup ("hostname"), tokens.lookup ("pid"),
       tokens.lookup kPort, tokens.lookup kProtocol,
       tokens.lookup ("reporter"), tokens.lookup ("severity"),
       tokens.lookup kUsername, dt) := by
  simp [ParseMessage, h, Except.map]

/-- Witness for C9: a login record built from a sample token mapping copies
the mapped values and defaults the rest to `none`. -/
theorem parseMessage_fields_from_tokens_witness :
    kLogin ∈ SUPPORTED_KEYS ∧
    (ParseMessage kLogin (7 : Nat) [(kPort, "22")]).map (fun r =>
      (r.address, r.authentication_method, r.body, r.fingerprint, r.hostname,
       r.pid, r.port, r.protocol, r.reporter, r.severity, r.username,
       r.last_written_time)) =
    Except.ok
      ([(kPort, "22")].lookup kAddress,
       [(kPort, "22")].lookup kAuthenticationMethod,
       [(kPort, "22")].lookup ("body"), [(kPort, "22")].lookup kFingerprint,
       [(kPort, "22")].lookup ("hostname"), [(kPort, "22")].lookup ("pid"),
       [(kPort, "22")].lookup kPort, [(kPort, "22")].lookup kProtocol,
       [(kPort, "22")].lookup ("reporter"), [(kPort, "22")].lookup ("severity"),
       [(kPort, "22")].lookup kUsername, 7) :=
  ⟨by decide, parseMessage_fields_from_tokens kLogin 7 [(kPort, "22")] (by decide)⟩

/-- C1 counterexample: building a record for category `opened_connection`
from a token mapping that does contain a `username` entry populates the
record's username field with that entry, so the field is not left absent. -/
theorem parseMessage_opened_copies_username :
    (ParseMessage kOpenedConnection (0 : Nat) [(kUsername, "x")]).map
      (fun r => r.username) = Except.ok (some ("x")) := by
  rfl

/-- C1 amended: building a record for category `opened_connection` leaves
username, authentication_method and protocol absent whenever the token
mapping contains no entries under those keys (as is the case for every token
mapping the opened-connection grammar produces); entries that are present are
copied like every other field. -/
theorem parseMessage_opened_absent_fields {DT : Type} (dt : DT)
    (tokens : List (String × String))
    (hu : tokens.lookup kUsername = none)
    (ha : tokens.lookup kAuthenticationMethod = none)
    (hp : tokens.lookup kProtocol = none) :
    (ParseMessage kOpenedConnection dt tokens).map (fun r =>
      (r.username, r.authentication_method, r.protocol)) =
    Except.ok (none, none, none) := by
  have hmem : kOpenedConnection ∈ SUPPORTED_KEYS := by decide
  simp [ParseMessage, hmem, hu, ha, hp, Except.map]

/-- Witness for C1 amended: an opened-connection record built from the token
mapping of the grammar match for `Connection from 10.0.0.5 port 22` leaves
the three inapplicable fields absent. -/
theorem parseMessage_opened_absent_fields_witness :
    [(kAddress, "10.0.0.5"), (kPort, "22")].lookup kUsername = none ∧
    (ParseMessage kOpenedConnection (0 : Nat)
        [(kAddress, "10.0.0.5"), (kPort, "22")]).map (fun r =>
      (r.username, r.authentication_method, r.protocol)) =
    Except.ok (none, none, none) :=
  ⟨by decide,
   parseMessage_opened_absent_fields 0 [(kAddress, "10.0.0.5"), (kPort, "22")]
     (by decide) (by decide) (by decide)⟩

/-- C4: classification tries the three grammars in the declared order of
`MESSAGE_GRAMMARS` — `login`, then `failed_connection`, then
`opened_connection` — and returns the category of the first grammar that
fully matches the body. -/
theorem classify_first_match_order (body : List Char) :
    classify body =
      match runGrammar LOGIN_GRAMMAR body with
      | some toks => some (kLogin, toks)
      | none =>
        match runGrammar FAILED_CONNECTION_GRAMMAR body with
        | some toks => some (kFailedConnection, toks)
        | none =>
          match runGrammar OPENED_CONNECTION_GRAMMAR body with
          | some toks => some (kOpenedConnection, toks)
          | none => none := by
  rfl

/-- Sequencing steps to the second grammar when the first one succeeds. -/
theorem gseq_eq_of_some {p q : GP} {st st1 : PState} (h : p st = some st1) :
    gseq p q st = q st1 := by
  simp [gseq, h]

/-- Sequencing fails when the first grammar fails. -/
theorem gseq_eq_none_of_none {p q : GP} {st : PState} (h : p st = none) :
    gseq p q st = none := by
  simp [gseq, h]

/-- A lifted element fails when the underlying element fails. -/
theorem applyLeaf_eq_none {n : Option String} {lf : Leaf} {st : PState}
    (h : lf st.prev st.rest = none) : applyLeaf n lf st = none := by
  simp [applyLeaf, h]

/-- A `MatchFirst` of two elements fails when both fail. -/
theorem altLeaf_eq_none {l1 l2 : Leaf} {prev : Option Char} {s : List Char}
    (h1 : l1 prev s = none) (h2 : l2 prev s = none) :
    altLeaf l1 l2 prev s = none := by
  simp [altLeaf, h1, h2]

/-- A whitespace character is a space or a tab. -/
theorem wsChar_cases {c : Char} (h : wsChar c = true) : c = ' ' ∨ c = '\t' := by
  simpa [wsChar] using h

/-- Identifier characters are not whitespace. -/
theorem not_ws_of_identChar {c : Char} (h : identChar c = true) :
    wsChar c = false := by
  cases hw : wsChar c
  · rfl
  · rcases wsChar_cases hw with rfl | rfl
    · exact absurd h (by decide)
    · exact absurd h (by decide)

/-- Alphanumeric characters are identifier characters. -/
theorem identChar_of_isAlphanum {c : Char} (h : c.isAlphanum = true) :
    identChar c = true := by
  simp [identChar, h]

/-- Decimal digits are alphanumeric. -/
theorem isAlphanum_of_isDigit {c : Char} (h : c.isDigit = true) :
    c.isAlphanum = true := by
  simp [Char.isAlphanum, h]

/-- Decimal digits are not whitespace. -/
theorem not_ws_of_isDigit {c : Char} (h : c.isDigit = true) :
    wsChar c = false :=
  not_ws_of_identChar (identChar_of_isAlphanum (isAlphanum_of_isDigit h))

/-- Dropping while a predicate holds on every element empties the list. -/
theorem dropWhile_eq_nil_of_forall {α : Type} {p : α → Bool} {l : List α}
    (h : ∀ x ∈ l, p x = true) : l.dropWhile p = [] := by
  induction l with
  | nil => rfl
  | cons a t ih =>
    rw [List.dropWhile_cons, h a (by simp)]
    exact ih fun x hx => h x (by simp [hx])

/-- A pyparsing `Keyword` rejects any identifier word other than its match
string: after optional whitespace, a non-empty run of identifier characters
delimited by a non-identifier character matches the keyword only if it is
exactly the keyword. -/
theorem keywordLeaf_reject {kw : List Char} (prev : Option Char)
    {ws w : List Char} {c : Char} {t : List Char}
    (hkw : ∀ x ∈ kw, identChar x = true)
    (hws : ∀ x ∈ ws, wsChar x = true)
    (hwne : w ≠ [])
    (hw : ∀ x ∈ w, identChar x = true)
    (hne : w ≠ kw)
    (hc : identChar c = false) :
    keywordLeaf kw prev (ws ++ (w ++ c :: t)) = none := by
  have h1 : List.dropWhile wsChar (ws ++ (w ++ c :: t)) = w ++ c :: t := by
    rw [List.dropWhile_append, dropWhile_eq_nil_of_forall hws]
    simp only [List.isEmpty_nil, if_true]
    cases w with
    | nil => exact absurd rfl hwne
    | cons a w2 =>
      have ha : wsChar a = false := not_ws_of_identChar (hw a (by simp))
      simp [List.dropWhile_cons, ha]
  simp only [keywordLeaf, h1]
  by_cases hpre : kw.isPrefixOf (w ++ c :: t) = true
  · rw [if_pos hpre]
    have hp : kw <+: w ++ c :: t := by simpa using hpre
    rcases le_or_lt kw.length w.length with hle | hlt
    · have hkw_w : kw <+: w :=
        List.prefix_of_prefix_length_le hp (List.prefix_append w (c :: t)) hle
      obtain ⟨w2, hw2⟩ := hkw_w
      subst hw2
      have hw2ne : w2 ≠ [] := by
        rintro rfl
        exact hne (by simp)
      rw [List.append_assoc, List.drop_left]
      cases w2 with
      | nil => exact absurd rfl hw2ne
      | cons d w3 =>
        have hd : identChar d = true := hw d (by simp)
        simp only [List.cons_append, hd, if_true, ite_self]
    · have hw_kw : w <+: kw :=
        List.prefix_of_prefix_length_le (List.prefix_append w (c :: t)) hp hlt.le
      obtain ⟨kw2, hkweq⟩ := hw_kw
      subst hkweq
      have hkw2ne : kw2 ≠ [] := by
        rintro rfl
        simp at hlt
      obtain ⟨r, hr⟩ := hp
      rw [List.append_assoc] at hr
      have hr2 : kw2 ++ r = c :: t := List.append_cancel_left hr
      cases kw2 with
      | nil => exact absurd rfl hkw2ne
      | cons e kw3 =>
        have he : e = c := by
          have := congrArg (fun l => l.head?) hr2
          simpa using this
        have hek : identChar e = true := hkw e (by simp)
        rw [he] at hek
        rw [hek] at hc
        cases hc
  · rw [if_neg hpre]

/-- C6: in the authentication-method position of the login and
failed-connection grammars exactly the tokens `password` and `publickey` are
accepted: both are accepted there, and every other non-empty alphanumeric
token in that position (including strings that merely start with one of
them, such as `passwords`) makes the grammar fail to match. -/
theorem authentication_method_exact (w : List Char) (hne : w ≠ [])
    (halnum : ∀ c ∈ w, c.isAlphanum = true)
    (hpw : w ≠ ("password").toList) (hpk : w ≠ ("publickey").toList) :
    (runGrammar LOGIN_GRAMMAR
      (("Accepted password for alice from 10.0.0.5 port 22 ssh2").toList)).isSome = true ∧
    (runGrammar LOGIN_GRAMMAR
      (("Accepted publickey for alice from 10.0.0.5 port 22 ssh2").toList)).isSome = true ∧
    (runGrammar FAILED_CONNECTION_GRAMMAR
      (("Failed password for alice from 10.0.0.5 port 22").toList)).isSome = true ∧
    (runGrammar FAILED_CONNECTION_GRAMMAR
      (("Failed publickey for alice from 10.0.0.5 port 22").toList)).isSome = true ∧
    runGrammar LOGIN_GRAMMAR
      (("Accepted ").toList ++
        (w ++ (" for alice from 10.0.0.5 port 22 ssh2").toList)) = none ∧
    runGrammar FAILED_CONNECTION_GRAMMAR
      (("Failed ").toList ++
        (w ++ (" for alice from 10.0.0.5 port 22").toList)) = none := by
  have hk : ∀ x ∈ w, identChar x = true :=
    fun x hx => identChar_of_isAlphanum (halnum x hx)
  refine ⟨by decide, by decide, by decide, by decide, ?_, ?_⟩
  · have hk1 :
        keywordLeaf (("password").toList) (some 'd')
          ([' '] ++ (w ++ (' ' ::
            ("for alice from 10.0.0.5 port 22 ssh2").toList))) = none :=
      keywordLeaf_reject (some 'd') (by decide) (by decide) hne hk hpw (by decide)
    have hk2 :
        keywordLeaf (("publickey").toList) (some 'd')
          ([' '] ++ (w ++ (' ' ::
            ("for alice from 10.0.0.5 port 22 ssh2").toList))) = none :=
      keywordLeaf_reject (some 'd') (by decide) (by decide) hne hk hpk (by decide)
    have hauth :
        applyLeaf (some kAuthenticationMethod) AUTHENTICATION_METHOD
          ⟨some 'd', [' '] ++ (w ++ (' ' ::
            ("for alice from 10.0.0.5 port 22 ssh2").toList)), []⟩ = none :=
      applyLeaf_eq_none (altLeaf_eq_none hk1 hk2)
    have hg :
        LOGIN_GRAMMAR
          ⟨none, ("Accepted ").toList ++
            (w ++ (" for alice from 10.0.0.5 port 22 ssh2").toList), []⟩ = none := by
      unfold LOGIN_GRAMMAR
      rw [gseq_eq_of_some
        (show applyLeaf none (litLeaf (("Accepted").toList))
            ⟨none, ("Accepted ").toList ++
              (w ++ (" for alice from 10.0.0.5 port 22 ssh2").toList), []⟩ =
          some ⟨some 'd', [' '] ++ (w ++ (' ' ::
            ("for alice from 10.0.0.5 port 22 ssh2").toList)), []⟩ from rfl)]
      exact gseq_eq_none_of_none hauth
    unfold runGrammar
    rw [hg]
  · have hk1 :
        keywordLeaf (("password").toList) (some 'd')
          ([' '] ++ (w ++ (' ' ::
            ("for alice from 10.0.0.5 port 22").toList))) = none :=
      keywordLeaf_reject (some 'd') (by decide) (by decide) hne hk hpw (by decide)
    have hk2 :
        keywordLeaf (("publickey").toList) (some 'd')
          ([' '] ++ (w ++ (' ' ::
            ("for alice from 10.0.0.5 port 22").toList))) = none :=
      keywordLeaf_reject (some 'd') (by decide) (by decide) hne hk hpk (by decide)
    have hauth :
        applyLeaf (some kAuthenticationMethod) AUTHENTICATION_METHOD
          ⟨some 'd', [' '] ++ (w ++ (' ' ::
            ("for alice from 10.0.0.5 port 22").toList)), []⟩ = none :=
      applyLeaf_eq_none (altLeaf_eq_none hk1 hk2)
    have hg :
        FAILED_CONNECTION_GRAMMAR
          ⟨none, ("Failed ").toList ++
            (w ++ (" for alice from 10.0.0.5 port 22").toList), []⟩ = none := by
      unfold FAILED_CONNECTION_GRAMMAR
      rw [gseq_eq_of_some
        (show applyLeaf none (litLeaf (("Failed").toList))
            ⟨none, ("Failed ").toList ++
              (w ++ (" for alice from 10.0.0.5 port 22").toList), []⟩ =
          some ⟨some 'd', [' '] ++ (w ++ (' ' ::
            ("for alice from 10.0.0.5 port 22").toList)), []⟩ from rfl)]
      exact gseq_eq_none_of_none hauth
    unfold runGrammar
    rw [hg]

/-- Witness for C6: the token `passwords` is rejected in the
authentication-method position of both grammars. -/
theorem authentication_method_exact_witness :
    (("passwords").toList ≠ [] ∧
      (∀ c ∈ ("passwords").toList, c.isAlphanum = true)) ∧
    runGrammar LOGIN_GRAMMAR
      (("Accepted ").toList ++
        (("passwords").toList ++
          (" for alice from 10.0.0.5 port 22 ssh2").toList)) = none ∧
    runGrammar FAILED_CONNECTION_GRAMMAR
      (("Failed ").toList ++
        (("passwords").toList ++
          (" for alice from 10.0.0.5 port 22").toList)) = none :=
  ⟨⟨by decide, by decide⟩,
   (authentication_method_exact (("passwords").toList) (by decide) (by decide)
      (by decide) (by decide)).2.2.2.2.1,
   (authentication_method_exact (("passwords").toList) (by decide) (by decide)
      (by decide) (by decide)).2.2.2.2.2⟩

/-- A bounded `Word` fails when the run of word characters at its position
is longer than the declared maximum. -/
theorem wordLeaf_cap_fail {p : Char → Bool} {k : Nat} (prev : Option Char)
    {ws : List Char} {a : Char} {u : List Char}
    (hws : ∀ x ∈ ws, wsChar x = true)
    (hnw : wsChar a = false)
    (hp : p a = true)
    (hm : k < ((a :: u).takeWhile p).length) :
    wordLeaf p (some k) prev (ws ++ (a :: u)) = none := by
  have h0 : List.dropWhile wsChar (ws ++ (a :: u)) = a :: u := by
    rw [List.dropWhile_append, dropWhile_eq_nil_of_forall hws]
    simp [List.dropWhile_cons, hnw]
  simp only [wordLeaf, h0, hp, if_true, if_pos hm]

set_option maxHeartbeats 1600000 in
/-- C7: the port sub-parser accepts exactly the strings of one to five
decimal digits, and a body whose port position holds six or more consecutive
digits matches neither the login nor the failed-connection grammar. -/
theorem port_one_to_five_digits :
    (∀ s : List Char,
      wordLeaf Char.isDigit (some 5) none s = some ([], s) ↔
        s ≠ [] ∧ s.length ≤ 5 ∧ ∀ c ∈ s, c.isDigit = true) ∧
    (∀ d : List Char, (∀ c ∈ d, c.isDigit = true) → 6 ≤ d.length →
      runGrammar LOGIN_GRAMMAR
        (("Accepted password for alice from 10.0.0.5 port ").toList ++
          (d ++ (" ssh2").toList)) = none ∧
      runGrammar FAILED_CONNECTION_GRAMMAR
        (("Failed password for alice from 10.0.0.5 port ").toList ++ d) = none) := by
  constructor
  · intro s
    constructor
    · intro heq
      cases hs0 : s.dropWhile wsChar with
      | nil => simp [wordLeaf, hs0] at heq
      | cons a r =>
        by_cases hd : Char.isDigit a = true
        · simp only [wordLeaf, hs0, hd, if_true] at heq
          by_cases h5 : 5 < ((a :: r).takeWhile Char.isDigit).length
          · simp [h5] at heq
          · simp only [if_neg h5, Option.some.injEq, Prod.mk.injEq] at heq
            obtain ⟨hdrop, htw⟩ := heq
            have hsplit : s.takeWhile wsChar ++ (a :: r) = s := by
              rw [← hs0]; exact List.takeWhile_append_dropWhile _ _
            have hlen1 : ((a :: r).takeWhile Char.isDigit).length ≤
                (a :: r).length := (List.takeWhile_sublist _).length_le
            have hlen2 : (s.takeWhile wsChar).length + (a :: r).length =
                s.length := by
              rw [← List.length_append, hsplit]
            rw [htw] at hlen1
            have hws0 : (s.takeWhile wsChar).length = 0 := by omega
            rw [List.length_eq_zero] at hws0
            rw [hws0, List.nil_append] at hsplit
            refine ⟨by rw [← hsplit]; simp, ?_, ?_⟩
            · have := congrArg List.length htw
              simp at this
              omega
            · intro c hc
              have hc2 : c ∈ List.takeWhile Char.isDigit (a :: r) := by
                rw [htw, ← hsplit]
                rw [← hsplit] at hc
                exact hc
              exact List.mem_takeWhile_imp hc2
        · simp [wordLeaf, hs0, hd] at heq
    · rintro ⟨hne, hlen, hall⟩
      cases s with
      | nil => exact absurd rfl hne
      | cons a s2 =>
        have h0 : List.dropWhile wsChar (a :: s2) = a :: s2 := by
          rw [List.dropWhile_cons_of_neg]
          simp [not_ws_of_isDigit (hall a (by simp))]
        have htw : (a :: s2).takeWhile Char.isDigit = a :: s2 :=
          List.takeWhile_eq_self_iff.mpr hall
        simp only [wordLeaf, h0, hall a (by simp), if_true, htw]
        rw [if_neg (by omega), List.drop_length]
  · intro d hall h6
    cases d with
    | nil => simp at h6
    | cons a d2 =>
      have hnw : wsChar a = false := not_ws_of_isDigit (hall a (by simp))
      constructor
      · have hfail :
            wordLeaf Char.isDigit (some 5) (some 't')
              ([' '] ++ (a :: (d2 ++ (" ssh2").toList))) = none := by
          refine wordLeaf_cap_fail (some 't') (by decide) hnw (hall a (by simp)) ?_
          have heq : (a :: (d2 ++ (" ssh2").toList)) =
              (a :: d2) ++ (" ssh2").toList := by simp
          rw [heq, List.takeWhile_append_of_pos hall, List.length_append]
          simp only [List.length_cons] at h6 ⊢
          omega
        have hg :
            LOGIN_GRAMMAR
              ⟨none, ("Accepted password for alice from 10.0.0.5 port ").toList ++
                ((a :: d2) ++ (" ssh2").toList), []⟩ = none := by
          show gseq PORT
              (gseq (applyLeaf (some kProtocol) (litLeaf (("ssh2").toList)))
                (gseq (gopt (gseq (applyLeaf none (litLeaf ([':'])))
                    (applyLeaf (some kFingerprint) fingerPrintLeaf)))
                  (applyLeaf none stringEndLeaf)))
              ⟨some 't', [' '] ++ (a :: (d2 ++ (" ssh2").toList)),
               [(kAuthenticationMethod, "password"), (kUsername, "alice"),
                (kAddress, "10.0.0.5")]⟩ = none
          exact gseq_eq_none_of_none (applyLeaf_eq_none hfail)
        unfold runGrammar
        rw [hg]
      · have hfail :
            wordLeaf Char.isDigit (some 5) (some 't')
              ([' '] ++ (a :: d2)) = none := by
          refine wordLeaf_cap_fail (some 't') (by decide) hnw (hall a (by simp)) ?_
          rw [List.takeWhile_eq_self_iff.mpr hall]
          simp only [List.length_cons] at h6 ⊢
          omega
        have hg :
            FAILED_CONNECTION_GRAMMAR
              ⟨none, ("Failed password for alice from 10.0.0.5 port ").toList ++
                (a :: d2), []⟩ = none := by
          show gseq PORT (applyLeaf none stringEndLeaf)
              ⟨some 't', [' '] ++ (a :: d2),
               [(kAuthenticationMethod, "password"), (kUsername, "alice"),
                (kAddress, "10.0.0.5")]⟩ = none
          exact gseq_eq_none_of_none (applyLeaf_eq_none hfail)
        unfold runGrammar
        rw [hg]

/-- Witness for C7: `123` is accepted by the port sub-parser, and a
failed-connection body with the six-digit port `123456` does not match. -/
theorem port_one_to_five_digits_witness :
    wordLeaf Char.isDigit (some 5) none (("123").toList) =
      some ([], ("123").toList) ∧
    runGrammar FAILED_CONNECTION_GRAMMAR
      (("Failed password for alice from 10.0.0.5 port ").toList ++
        ("123456").toList) = none :=
  ⟨(port_one_to_five_digits.1 (("123").toList)).mpr
      ⟨by decide, by decide, by decide⟩,
   (port_one_to_five_digits.2 (("123456").toList) (by decide) (by decide)).2⟩

/-- Explicit result of a lifted element that succeeds. -/
theorem applyLeaf_eq_some (n : Option String) (lf : Leaf) (st : PState)
    {r m : List Char} (h : lf st.prev st.rest = some (r, m)) :
    applyLeaf n lf st =
      some { prev := match m.getLast? with
                     | some c => some c
                     | none => st.prev,
             rest := r,
             toks := st.toks ++ (match n with
                                 | some nm => [(nm, String.mk m)]
                                 | none => []) } := by
  simp [applyLeaf, h]

/-- Sequencing step with the continuation grammar given explicitly. -/
theorem gseq_eq_of_some2 (q : GP) {p : GP} {st st1 : PState}
    (h : p st = some st1) : gseq p q st = q st1 :=
  gseq_eq_of_some h

/-- An `Optional` clause propagates an inner success. -/
theorem gopt_eq_of_some {p : GP} {st st1 : PState} (h : p st = some st1) :
    gopt p st = some st1 := by
  simp [gopt, h]

/-- The fingerprint element accepts a space, the `RSA ` tag and a non-empty
hex-and-colon payload, yielding the tag and payload as its matched text. -/
theorem fingerPrintLeaf_eval (prev : Option Char) (c : Char) (h2 : List Char)
    (hall : ∀ x ∈ c :: h2, hexColonChar x = true) :
    fingerPrintLeaf prev ((" RSA ").toList ++ (c :: h2)) =
      some ([], ("RSA ").toList ++ (c :: h2)) := by
  have htw : (c :: h2).takeWhile hexColonChar = c :: h2 :=
    List.takeWhile_eq_self_iff.mpr hall
  have hjump : fingerPrintLeaf prev ((" RSA ").toList ++ (c :: h2)) =
      (if hexColonChar c = true then
        some ((c :: h2).drop ((c :: h2).takeWhile hexColonChar).length,
          ("RSA ").toList ++ (c :: h2).takeWhile hexColonChar)
      else none) := rfl
  rw [hjump, if_pos (hall c (by simp)), htw, List.drop_length]

set_option maxHeartbeats 1600000 in
/-- C5: the fingerprint clause of the login grammar is optional — a body
ending right after `ssh2` matches with the fingerprint token absent, and a
body continuing with a colon, the `RSA ` tag and any non-empty string of hex
digits and colons matches with the fingerprint token equal to exactly that
text including the `RSA ` prefix. -/
theorem login_fingerprint_optional (h : List Char) (hne : h ≠ [])
    (hall : ∀ x ∈ h, hexColonChar x = true) :
    runGrammar LOGIN_GRAMMAR
      (("Accepted publickey for bob from 10.0.0.5 port 2222 ssh2").toList) =
      some [(kAuthenticationMethod, "publickey"), (kUsername, "bob"),
            (kAddress, "10.0.0.5"), (kPort, "2222"), (kProtocol, "ssh2")] ∧
    List.lookup kFingerprint
      [(kAuthenticationMethod, "publickey"), (kUsername, "bob"),
       (kAddress, "10.0.0.5"), (kPort, "2222"), (kProtocol, "ssh2")] = none ∧
    runGrammar LOGIN_GRAMMAR
      (("Accepted publickey for bob from 10.0.0.5 port 2222 ssh2").toList ++
        ((": RSA ").toList ++ h)) =
      some [(kAuthenticationMethod, "publickey"), (kUsername, "bob"),
            (kAddress, "10.0.0.5"), (kPort, "2222"), (kProtocol, "ssh2"),
            (kFingerprint, String.mk (("RSA ").toList ++ h))] := by
  obtain ⟨c, h2, rfl⟩ : ∃ c h2, h = c :: h2 := by
    cases h with
    | nil => exact absurd rfl hne
    | cons c h2 => exact ⟨c, h2, rfl⟩
  refine ⟨by decide, by decide, ?_⟩
  have hlitcolon :
      applyLeaf none (litLeaf ([':']))
        ⟨some '2', (": RSA ").toList ++ (c :: h2),
         [(kAuthenticationMethod, "publickey"), (kUsername, "bob"),
          (kAddress, "10.0.0.5"), (kPort, "2222"), (kProtocol, "ssh2")]⟩ =
      some ⟨some ':', (" RSA ").toList ++ (c :: h2),
        [(kAuthenticationMethod, "publickey"), (kUsername, "bob"),
         (kAddress, "10.0.0.5"), (kPort, "2222"), (kProtocol, "ssh2")]⟩ := rfl
  have hfp := applyLeaf_eq_some (some kFingerprint) fingerPrintLeaf
    ⟨some ':', (" RSA ").toList ++ (c :: h2),
     [(kAuthenticationMethod, "publickey"), (kUsername, "bob"),
      (kAddress, "10.0.0.5"), (kPort, "2222"), (kProtocol, "ssh2")]⟩
    (fingerPrintLeaf_eval (some ':') c h2 hall)
  have hinner :=
    (gseq_eq_of_some2 (applyLeaf (some kFingerprint) fingerPrintLeaf)
      hlitcolon).trans hfp
  unfold runGrammar
  show (match
      (gseq (gopt (gseq (applyLeaf none (litLeaf ([':'])))
          (applyLeaf (some kFingerprint) fingerPrintLeaf)))
        (applyLeaf none stringEndLeaf))
      ⟨some '2', (": RSA ").toList ++ (c :: h2),
       [(kAuthenticationMethod, "publickey"), (kUsername, "bob"),
        (kAddress, "10.0.0.5"), (kPort, "2222"), (kProtocol, "ssh2")]⟩ with
    | some st => some st.toks
    | none => none) =
    some [(kAuthenticationMethod, "publickey"), (kUsername, "bob"),
          (kAddress, "10.0.0.5"), (kPort, "2222"), (kProtocol, "ssh2"),
          (kFingerprint, String.mk (("RSA ").toList ++ (c :: h2)))]
  rw [gseq_eq_of_some (gopt_eq_of_some hinner)]
  rfl

/-- Witness for C5: the payload `aa:bb:cc:dd` of the spec's example. -/
theorem login_fingerprint_optional_witness :
    runGrammar LOGIN_GRAMMAR
      (("Accepted publickey for bob from 10.0.0.5 port 2222 ssh2").toList) =
      some [(kAuthenticationMethod, "publickey"), (kUsername, "bob"),
            (kAddress, "10.0.0.5"), (kPort, "2222"), (kProtocol, "ssh2")] ∧
    runGrammar LOGIN_GRAMMAR
      (("Accepted publickey for bob from 10.0.0.5 port 2222 ssh2").toList ++
        ((": RSA ").toList ++ (("aa:bb:cc:dd").toList))) =
      some [(kAuthenticationMethod, "publickey"), (kUsername, "bob"),
            (kAddress, "10.0.0.5"), (kPort, "2222"), (kProtocol, "ssh2"),
            (kFingerprint,
             String.mk (("RSA ").toList ++ (("aa:bb:cc:dd").toList)))] :=
  ⟨(login_fingerprint_optional (("aa:bb:cc:dd").toList) (by decide)
      (by decide)).1,
   (login_fingerprint_optional (("aa:bb:cc:dd").toList) (by decide)
      (by decide)).2.2⟩

/-- Evaluation of a bounded `Word` whose run and cap are known. -/
theorem wordLeaf_eval (p : Char → Bool) (k : Nat) (prev : Option Char)
    {ws : List Char} {a : Char} {u m : List Char}
    (hws : ∀ x ∈ ws, wsChar x = true) (ha : wsChar a = false)
    (hpa : p a = true) (htw : (a :: u).takeWhile p = m)
    (hk : ¬ k < m.length) :
    wordLeaf p (some k) prev (ws ++ (a :: u)) =
      some ((a :: u).drop m.length, m) := by
  have h0 : List.dropWhile wsChar (ws ++ (a :: u)) = a :: u := by
    rw [List.dropWhile_append, dropWhile_eq_nil_of_forall hws]
    simp [List.dropWhile_cons, ha]
  simp only [wordLeaf, h0, hpa, if_true, htw, if_neg hk]

/-- A list is a boolean prefix of itself followed by anything. -/
theorem isPrefixOf_self_append {l t : List Char} :
    l.isPrefixOf (l ++ t) = true :=
  List.isPrefixOf_iff_prefix.mpr (List.prefix_append l t)

/-- Evaluation of a `Literal` whose text follows optional whitespace. -/
theorem litLeaf_eval (a : Char) (l2 : List Char) (prev : Option Char)
    (ws t : List Char) (hws : ∀ x ∈ ws, wsChar x = true)
    (ha : wsChar a = false) :
    litLeaf (a :: l2) prev (ws ++ ((a :: l2) ++ t)) = some (t, a :: l2) := by
  have h0 : List.dropWhile wsChar (ws ++ ((a :: l2) ++ t)) = (a :: l2) ++ t := by
    rw [List.dropWhile_append, dropWhile_eq_nil_of_forall hws]
    simp [List.dropWhile_cons, ha]
  simp only [litLeaf, h0, isPrefixOf_self_append, if_true]
  rw [List.drop_left]

set_option maxHeartbeats 800000 in
/-- C10: the leading keyword of the opened-connection grammar is a single
literal containing one space — bodies with two spaces or a tab between
`Connection` and `from` do not match — while arbitrary runs of inter-token
whitespace are tolerated between all other grammar elements. -/
theorem opened_connection_literal_spacing (ws1 ws2 ws3 : List Char)
    (h1 : ∀ c ∈ ws1, wsChar c = true) (h2 : ∀ c ∈ ws2, wsChar c = true)
    (h3 : ∀ c ∈ ws3, wsChar c = true) :
    runGrammar OPENED_CONNECTION_GRAMMAR
      (("Connection  from 10.0.0.5 port 22").toList) = none ∧
    runGrammar OPENED_CONNECTION_GRAMMAR
      (("Connection\tfrom 10.0.0.5 port 22").toList) = none ∧
    runGrammar OPENED_CONNECTION_GRAMMAR
      (("Connection from").toList ++ (ws1 ++ (("10.0.0.5").toList ++
        (ws2 ++ (("port").toList ++ (ws3 ++ ("22").toList)))))) =
      some [(kAddress, "10.0.0.5"), (kPort, "22")] := by
  refine ⟨by decide, by decide, ?_⟩
  have hipcore :
      ipv4Core (("10.0.0.5").toList ++
        (ws2 ++ (("port").toList ++ (ws3 ++ ("22").toList)))) =
      some (("10.0.0.5").toList,
        ws2 ++ (("port").toList ++ (ws3 ++ ("22").toList))) := by
    cases ws2 with
    | nil => rfl
    | cons w ws2b =>
      rcases wsChar_cases (h2 w (by simp)) with rfl | rfl
      · rfl
      · rfl
  have hip :
      IP_ADDRESS (some 'm')
        (ws1 ++ (("10.0.0.5").toList ++
          (ws2 ++ (("port").toList ++ (ws3 ++ ("22").toList))))) =
      some (ws2 ++ (("port").toList ++ (ws3 ++ ("22").toList)),
        ("10.0.0.5").toList) := by
    have h0 : List.dropWhile wsChar
        (ws1 ++ (("10.0.0.5").toList ++
          (ws2 ++ (("port").toList ++ (ws3 ++ ("22").toList))))) =
        ("10.0.0.5").toList ++
          (ws2 ++ (("port").toList ++ (ws3 ++ ("22").toList))) := by
      rw [List.dropWhile_append, dropWhile_eq_nil_of_forall h1]
      rfl
    show altLeaf ipv4Leaf ipv6Leaf (some 'm') _ = _
    simp only [altLeaf, ipv4Leaf, h0, hipcore]
  have hipstep :
      applyLeaf (some kAddress) IP_ADDRESS
        ⟨some 'm', ws1 ++ (("10.0.0.5").toList ++
          (ws2 ++ (("port").toList ++ (ws3 ++ ("22").toList)))), []⟩ =
      some ⟨some '5', ws2 ++ (("port").toList ++ (ws3 ++ ("22").toList)),
        [(kAddress, "10.0.0.5")]⟩ :=
    applyLeaf_eq_some (some kAddress) IP_ADDRESS _ hip
  have hlit0 :
      litLeaf (("Connection from").toList) none
        (("Connection from").toList ++ (ws1 ++ (("10.0.0.5").toList ++
          (ws2 ++ (("port").toList ++ (ws3 ++ ("22").toList)))))) =
      some (ws1 ++ (("10.0.0.5").toList ++
        (ws2 ++ (("port").toList ++ (ws3 ++ ("22").toList)))),
        ("Connection from").toList) :=
    litLeaf_eval 'C' (("onnection from").toList) none []
      (ws1 ++ (("10.0.0.5").toList ++
        (ws2 ++ (("port").toList ++ (ws3 ++ ("22").toList)))))
      (by simp) (by decide)
  have hlitstep :
      applyLeaf none (litLeaf (("Connection from").toList))
        ⟨none, ("Connection from").toList ++ (ws1 ++ (("10.0.0.5").toList ++
          (ws2 ++ (("port").toList ++ (ws3 ++ ("22").toList))))), []⟩ =
      some ⟨some 'm', ws1 ++ (("10.0.0.5").toList ++
        (ws2 ++ (("port").toList ++ (ws3 ++ ("22").toList)))), []⟩ :=
    applyLeaf_eq_some none (litLeaf (("Connection from").toList)) _ hlit0
  have hlitport :
      litLeaf (("port").toList) (some '5')
        (ws2 ++ (("port").toList ++ (ws3 ++ ("22").toList))) =
      some (ws3 ++ ("22").toList, ("port").toList) :=
    litLeaf_eval 'p' (("ort").toList) (some '5') ws2 (ws3 ++ ("22").toList)
      h2 (by decide)
  have hportstep :
      applyLeaf none (litLeaf (("port").toList))
        ⟨some '5', ws2 ++ (("port").toList ++ (ws3 ++ ("22").toList)),
         [(kAddress, "10.0.0.5")]⟩ =
      some ⟨some 't', ws3 ++ ("22").toList, [(kAddress, "10.0.0.5")]⟩ :=
    applyLeaf_eq_some none (litLeaf (("port").toList)) _ hlitport
  have hword :
      wordLeaf Char.isDigit (some 5) (some 't') (ws3 ++ ("22").toList) =
      some ([], ("22").toList) :=
    wordLeaf_eval Char.isDigit 5 (some 't') h3 (by decide) (by decide) rfl
      (by decide)
  have hwordstep :
      applyLeaf (some kPort) (wordLeaf Char.isDigit (some 5))
        ⟨some 't', ws3 ++ ("22").toList, [(kAddress, "10.0.0.5")]⟩ =
      some ⟨some '2', [], [(kAddress, "10.0.0.5"), (kPort, "22")]⟩ :=
    applyLeaf_eq_some (some kPort) (wordLeaf Char.isDigit (some 5)) _ hword
  unfold runGrammar OPENED_CONNECTION_GRAMMAR PORT
  rw [gseq_eq_of_some hlitstep, gseq_eq_of_some hipstep,
    gseq_eq_of_some hportstep, gseq_eq_of_some hwordstep]
  rfl

/-- Witness for C10: spaces and a tab between the other grammar elements. -/
theorem opened_connection_literal_spacing_witness :
    runGrammar OPENED_CONNECTION_GRAMMAR
      (("Connection\tfrom 10.0.0.5 port 22").toList) = none ∧
    runGrammar OPENED_CONNECTION_GRAMMAR
      (("Connection from").toList ++ (("  ").toList ++ (("10.0.0.5").toList ++
        (("\t ").toList ++ (("port").toList ++
          ((" \t\t").toList ++ ("22").toList)))))) =
      some [(kAddress, "10.0.0.5"), (kPort, "22")] :=
  ⟨(opened_connection_literal_spacing (("  ").toList) (("\t ").toList)
      ((" \t\t").toList) (by decide) (by decide) (by decide)).2.1,
   (opened_connection_literal_spacing (("  ").toList) (("\t ").toList)
      ((" \t\t").toList) (by decide) (by decide) (by decide)).2.2⟩

/-- C8: classifying the sample body yields category `login` with the exact
token values of the claim, and no fingerprint token. -/
theorem classify_login_example :
    classify (("Accepted password for alice from 10.0.0.5 port 22 ssh2").toList) =
      some (kLogin,
        [(kAuthenticationMethod, "password"), (kUsername, "alice"),
         (kAddress, "10.0.0.5"), (kPort, "22"), (kProtocol, "ssh2")]) ∧
    (classify (("Accepted password for alice from 10.0.0.5 port 22 ssh2").toList)).map
        (fun r => r.2.lookup kFingerprint) = some none := by
  constructor
  · decide
  · decide

end Ssh
